import Mathlib

/-!
Shallow embedding of the scanoss/api.go scanning service: the scan
configuration resolver (pkg/service/scanning_service_config.go and the
getConfigFromRequest caller), the WFP grouping and multi-worker dispatch
logic (pkg/service/scanning_service.go, scanThreaded and workerScan), and
the batch session handler (ScanBatch and appendWfpChunk).  Go machine
integers are modelled as Int, byte and string payloads as String, and the
results of external library calls (JSON unmarshalling, the scan engine
subprocess) as explicit oracle arguments.
-/

namespace ScanossApi

/-! ## Models of the Go standard library helpers used by the service -/

/-- Model of unicode.IsSpace restricted to the Latin-1 fast path that Go
uses for these byte strings: tab, newline, vertical tab, form feed,
carriage return, space, next line and non-breaking space. -/
def goIsSpace (c : Char) : Bool :=
  c = ' ' || c = Char.ofNat 9 || c = Char.ofNat 10 || c = Char.ofNat 11 ||
  c = Char.ofNat 12 || c = Char.ofNat 13 || c = Char.ofNat 133 || c = Char.ofNat 160

/-- Trim leading and trailing whitespace from a character list, as
bytes.TrimSpace and strings.TrimSpace do. -/
def trimSpaceList (l : List Char) : List Char :=
  ((l.dropWhile goIsSpace).reverse.dropWhile goIsSpace).reverse

/-- Model of Go strings.TrimSpace and bytes.TrimSpace. -/
def trimSpace (s : String) : String :=
  String.mk (trimSpaceList s.data)

/-- Check whether the list `p` is an initial segment of `l`. -/
def strStarts : List Char → List Char → Bool
  | _, [] => true
  | [], _ :: _ => false
  | c :: cs, d :: ds => c = d && strStarts cs ds

/-- Check whether `p` occurs contiguously inside `l`. -/
def strContainsAux (l p : List Char) : Bool :=
  match l with
  | [] => strStarts [] p
  | _ :: cs => strStarts l p || strContainsAux cs p

/-- Model of Go strings.Contains. -/
def goContains (s sub : String) : Bool :=
  strContainsAux s.data sub.data

/-- Model of Go strings.ToLower restricted to ASCII letters, which is all
that the X-Final-Chunk header comparison exercises. -/
def goToLower (s : String) : String :=
  String.mk (s.data.map fun c =>
    if 'A' ≤ c ∧ c ≤ 'Z' then Char.ofNat (c.toNat + 32) else c)

/-- Fueled splitter on a non-empty separator.  The fuel is the length of
the list being split, so the fallback branch is never reached for a
non-empty separator. -/
def goSplitFuel (sep : List Char) : Nat → List Char → List Char → List (List Char)
  | 0, l, acc => [acc.reverse ++ l]
  | fuel + 1, l, acc =>
    match l with
    | [] => [acc.reverse]
    | c :: cs =>
      if strStarts l sep then
        acc.reverse :: goSplitFuel sep fuel (l.drop sep.length) []
      else
        goSplitFuel sep fuel cs (c :: acc)

/-- Model of Go strings.Split for a non-empty separator: the list of
segments between non-overlapping occurrences of the separator. -/
def goSplit (s sep : String) : List String :=
  (goSplitFuel sep.data s.data.length s.data []).map String.mk

/-- Model of Go strconv.Atoi: an optional sign followed by at least one
decimal digit.  The Go 64-bit overflow bound is not modelled because no
claim exercises it. -/
def goAtoi (s : String) : Option Int :=
  match s.data with
  | [] => none
  | '+' :: ds => (digitsVal ds).map fun n => (n : Int)
  | '-' :: ds => (digitsVal ds).map fun n => -(n : Int)
  | ds => (digitsVal ds).map fun n => (n : Int)
where
  digitsVal : List Char → Option Nat
    | [] => none
    | ds => ds.foldlM (fun acc c =>
        if '0' ≤ c ∧ c ≤ '9' then some (acc * 10 + (c.toNat - 48)) else none) 0

/-- Value of one character of the standard base64 alphabet. -/
def b64Val (c : Char) : Option Nat :=
  if 'A' ≤ c ∧ c ≤ 'Z' then some (c.toNat - 65)
  else if 'a' ≤ c ∧ c ≤ 'z' then some (c.toNat - 97 + 26)
  else if '0' ≤ c ∧ c ≤ '9' then some (c.toNat - 48 + 52)
  else if c = '+' then some 62
  else if c = '/' then some 63
  else none

/-- Decode complete base64 quadruples, with padding accepted only on the
final quadruple, as base64.StdEncoding.DecodeString requires. -/
def b64Groups : List Char → Option (List Nat)
  | [] => some []
  | a :: b :: c :: d :: rest =>
    match b64Val a, b64Val b with
    | some va, some vb =>
      if c = '=' ∧ d = '=' ∧ rest = [] then
        some [va * 4 + vb / 16]
      else if d = '=' ∧ rest = [] then
        match b64Val c with
        | some vc => some [va * 4 + vb / 16, (vb % 16) * 16 + vc / 4]
        | none => none
      else
        match b64Val c, b64Val d with
        | some vc, some vd =>
          (b64Groups rest).map fun tail =>
            (va * 4 + vb / 16) :: ((vb % 16) * 16 + vc / 4) ::
              ((vc % 4) * 64 + vd) :: tail
        | _, _ => none
    | _, _ => none
  | _ => none

/-- Model of Go base64.StdEncoding.DecodeString: carriage returns and
newlines are ignored, then the input must be complete padded quadruples
over the standard alphabet. -/
def base64Decode (s : String) : Option (List Nat) :=
  b64Groups (s.data.filter fun c => c ≠ Char.ofNat 13 ∧ c ≠ Char.ofNat 10)

/-! ## Scan configuration resolver
(pkg/service/scanning_service_config.go, primary version) -/

/-- The effective scanning configuration, field for field from the Go
struct ScanningServiceConfig. -/
structure ScanningServiceConfig where
  flags : Int
  sbomType : String
  sbomFile : String
  dbName : String
  rankingEnabled : Bool
  rankingThreshold : Int
  minSnippetHits : Int
  minSnippetLines : Int
  honourFileExts : Bool
deriving DecidableEq, Repr

/-- The Go zero value of ScanningServiceConfig, returned when the current
configuration pointer is nil. -/
def zeroScanningServiceConfig : ScanningServiceConfig :=
  { flags := 0, sbomType := "", sbomFile := "", dbName := ""
    rankingEnabled := false, rankingThreshold := 0
    minSnippetHits := 0, minSnippetLines := 0, honourFileExts := false }

/-- The scanSettings struct decoded from the JSON settings payload; each
field is optional, mirroring the Go pointer fields. -/
structure ScanSettings where
  rankingEnabled : Option Bool
  rankingThreshold : Option Int
  minSnippetHits : Option Int
  minSnippetLines : Option Int
  honourFileExts : Option Bool
deriving DecidableEq, Repr

/-- A settings value with no field present, the zero value used when no
payload is supplied. -/
def emptyScanSettings : ScanSettings :=
  { rankingEnabled := none, rankingThreshold := none, minSnippetHits := none
    minSnippetLines := none, honourFileExts := none }

/-- applyRankingSettings: when any ranking field is requested while the
server has RankingAllowed false, the whole settings block is ignored with
a warning; otherwise each present field overrides the copy. -/
def applyRankingSettings (rankingAllowed : Bool) (config : ScanningServiceConfig)
    (settings : ScanSettings) : ScanningServiceConfig :=
  if (settings.rankingEnabled ≠ none ∨ settings.rankingThreshold ≠ none) ∧
      ¬rankingAllowed then
    config
  else
    let config := match settings.rankingEnabled with
      | some v => { config with rankingEnabled := v }
      | none => config
    match settings.rankingThreshold with
    | some v => { config with rankingThreshold := v }
    | none => config

/-- The MinSnippetHits if-block of applySnippetSettings: a non-negative
requested value overrides the copy, a negative one is recorded as
invalid. -/
def applyMinSnippetHits (settings : ScanSettings)
    (acc : ScanningServiceConfig × List String) :
    ScanningServiceConfig × List String :=
  match settings.minSnippetHits with
  | some v =>
    if 0 ≤ v then ({ acc.1 with minSnippetHits := v }, acc.2)
    else (acc.1, acc.2 ++ ["MinSnippetHits: " ++ toString v])
  | none => acc

/-- The MinSnippetLines if-block of applySnippetSettings: a positive
requested value overrides the copy, any other is recorded as invalid. -/
def applyMinSnippetLines (settings : ScanSettings)
    (acc : ScanningServiceConfig × List String) :
    ScanningServiceConfig × List String :=
  match settings.minSnippetLines with
  | some v =>
    if 0 < v then ({ acc.1 with minSnippetLines := v }, acc.2)
    else (acc.1, acc.2 ++ ["MinSnippetLines: " ++ toString v])
  | none => acc

/-- The HonourFileExts if-block of applySnippetSettings. -/
def applyHonourFileExts (settings : ScanSettings)
    (acc : ScanningServiceConfig × List String) :
    ScanningServiceConfig × List String :=
  match settings.honourFileExts with
  | some v => ({ acc.1 with honourFileExts := v }, acc.2)
  | none => acc

/-- applySnippetSettings: requesting any match-config field (the
matchConfigRequested test of the source) while the server has
MatchConfigAllowed false fails with an error before any field is
applied; otherwise the three if-blocks run in source order. -/
def applySnippetSettings (matchConfigAllowed : Bool) (config : ScanningServiceConfig)
    (settings : ScanSettings) :
    Except String (ScanningServiceConfig × List String) :=
  if (settings.minSnippetHits ≠ none ∨ settings.minSnippetLines ≠ none ∨
      settings.honourFileExts ≠ none) ∧ ¬matchConfigAllowed then
    .error "match config settings rejected: MatchConfigAllowed is disabled"
  else
    .ok (applyHonourFileExts settings
      (applyMinSnippetLines settings (applyMinSnippetHits settings (config, []))))

/-- applyDirectParameters: the legacy string parameters always apply
last; a malformed flags value is logged and skipped for that field
only. -/
def applyDirectParameters (config : ScanningServiceConfig)
    (flags scanType sbom dbName : String) : ScanningServiceConfig :=
  let config := if dbName ≠ "" then { config with dbName := dbName } else config
  let config :=
    if flags ≠ "" then
      match goAtoi flags with
      | some v => { config with flags := v }
      | none => config
    else config
  let config := if scanType ≠ "" then { config with sbomType := scanType } else config
  if sbom ≠ "" then { config with sbomFile := sbom } else config

/-- UpdateScanningServiceConfigDTO.  The first component of the result is
the pointee of the currentConfig pointer after the call, tracking every
write the Go code could make through that pointer; the body copies the
base once and only ever writes to the copy.  The JSON unmarshalling of
the settings bytes is an explicit oracle argument `jsonParse`; `none`
models an unmarshal error. -/
def UpdateScanningServiceConfigDTO (rankingAllowed matchConfigAllowed : Bool)
    (jsonParse : List Nat → Option ScanSettings)
    (currentConfig : Option ScanningServiceConfig)
    (flags scanType sbom dbName : String) (inputSettings : List Nat) :
    Option ScanningServiceConfig × ScanningServiceConfig × Option String :=
  match currentConfig with
  | none =>
    (none, zeroScanningServiceConfig,
      some "default server scanning service config is undefined")
  | some cur =>
    let updatedConfig := cur
    let parsed : Option ScanSettings :=
      if 0 < inputSettings.length then jsonParse inputSettings
      else some emptyScanSettings
    match parsed with
    | none =>
      (some cur, updatedConfig,
        some "error unmarshalling scanning service config requested by client")
    | some newSettings =>
      let updatedConfig := applyRankingSettings rankingAllowed updatedConfig newSettings
      match applySnippetSettings matchConfigAllowed updatedConfig newSettings with
      | .error e => (some cur, updatedConfig, some e)
      | .ok (updatedConfig, _invalidSettings) =>
        let updatedConfig := applyDirectParameters updatedConfig flags scanType sbom dbName
        (some cur, updatedConfig, none)

/-- getConfigFromRequest (src/unnamed/part_010): the settings header is
base64-decoded when present; a decode failure is logged and leaves the
decoded bytes nil, after which the resolver runs as if no payload had
been supplied.  Returns the resolved configuration together with the
resolver error, if any. -/
def getConfigFromRequest (rankingAllowed matchConfigAllowed : Bool)
    (jsonParse : List Nat → Option ScanSettings)
    (serverDefault : ScanningServiceConfig)
    (flags scanType sbom dbName scanSettingsHeader : String) :
    ScanningServiceConfig × Option String :=
  let scanConfig := serverDefault
  let decoded : List Nat :=
    if 0 < scanSettingsHeader.length then
      match base64Decode scanSettingsHeader with
      | none => []
      | some bs => bs
    else []
  let r := UpdateScanningServiceConfigDTO rankingAllowed matchConfigAllowed
    jsonParse (some scanConfig) flags scanType sbom dbName decoded
  (r.2.1, r.2.2)

/-! ## WFP grouping and multi-worker dispatch
(pkg/service/scanning_service.go, scanThreaded and workerScan) -/

/-- The grouping loop of scanThreaded: each split segment is trimmed,
empty segments are skipped, the `file=` prefix is restored, and a batch
is submitted whenever the pending group reaches the grouping size; a
non-empty trailing group is submitted at the end.  Batches are kept as
record lists here and serialized at submission in `groupJobs`. -/
def groupBatchesAux (g : Nat) : List String → List String → List (List String)
  | [], pending => if 0 < pending.length then [pending] else []
  | w :: ws, pending =>
    let t := trimSpace w
    if t.length = 0 then groupBatchesAux g ws pending
    else
      let pending := pending ++ ["file=" ++ t]
      if g ≤ pending.length then pending :: groupBatchesAux g ws []
      else groupBatchesAux g ws pending

/-- The grouped batches that scanThreaded builds from the split WFP
segments. -/
def groupBatches (g : Nat) (wfps : List String) : List (List String) :=
  groupBatchesAux g wfps []

/-- The job strings submitted to the request channel: each batch joined
with newlines, exactly as the source joins wfpRequests at submission. -/
def groupJobs (g : Nat) (wfps : List String) : List String :=
  (groupBatches g wfps).map (String.intercalate "\n")

/-- The number of split segments whose trimmed form is non-empty: the
records that actually enter a batch. -/
def nonEmptyWfps : List String → Nat
  | [] => 0
  | w :: ws => if (trimSpace w).length = 0 then nonEmptyWfps ws else nonEmptyWfps ws + 1

/-- workerScan, for one job: an empty job or a failed engine invocation
produces the empty string; a successful invocation is trimmed, stripped
of exactly one enclosing brace pair when present, and trimmed again.
The engine oracle returns `none` for a failed scanWfp call. -/
def workerResult (engine : String → Option String) (job : String) : String :=
  if job.length = 0 then ""
  else
    match engine job with
    | none => ""
    | some result =>
      let r := (trimSpace result).data
      let r :=
        if 1 < r.length ∧ r.head? = some (Char.ofNat 123) ∧
            r.getLast? = some (Char.ofNat 125) then
          (r.drop 1).dropLast
        else r
      trimSpace (String.mk r)

/-- The observable outcome of one scanThreaded dispatch. -/
structure ThreadedOutcome where
  workersSpawned : Nat
  jobs : List String
  results : List String
  responses : List String
  status : Nat
  body : String
deriving DecidableEq, Repr

/-- scanThreaded: worker count reduced to wfpCount / grouping (Go integer
division on the raw split record count) when smaller than the configured
count, floored at one; the grouping loop submits the jobs; one result is
drained per submitted job; responses keep the non-empty trimmed results;
zero responses fail the request, otherwise the fragments are joined with
commas and wrapped in one brace pair.  Results are modelled in job order
since no claim depends on completion order. -/
def scanThreaded (workers : Int) (grouping : Nat) (engine : String → Option String)
    (wfps : List String) (wfpCount : Nat) : ThreadedOutcome :=
  let groupedWfps : Nat := wfpCount / grouping
  let numWorkers : Int := if (groupedWfps : Int) < workers then (groupedWfps : Int) else workers
  let numWorkers : Int := if numWorkers < 1 then 1 else numWorkers
  let jobs := groupJobs grouping wfps
  let results := jobs.map (workerResult engine)
  let responses := (results.map trimSpace).filter fun r => r.length ≠ 0
  { workersSpawned := numWorkers.toNat
    jobs := jobs
    results := results
    responses := responses
    status := if responses.length = 0 then 500 else 200
    body :=
      if responses.length = 0 then "ERROR engine scan failed\n"
      else "\x7b" ++ String.intercalate "," responses ++ "\x7d\n" }

/-- singleScan: one engine invocation on the whole blob; a failure or an
empty trimmed response is an engine error.  Returns status, body and the
list of engine inputs used. -/
def singleScan (engine : String → Option String) (wfp : String) :
    Nat × String × List String :=
  match engine wfp with
  | none => (500, "ERROR engine scan failed\n", [wfp])
  | some result =>
    let response := trimSpace result
    if response.length = 0 then (500, "ERROR engine scan failed\n", [wfp])
    else (200, response ++ "\n", [wfp])

/-- The observable outcome of the scanDirect dispatch tail. -/
structure DispatchOutcome where
  status : Nat
  body : String
  engineInputs : List String
  wfpCount : Nat
deriving DecidableEq, Repr

/-- The dispatch tail of scanDirect, from the received form contents
onwards: trim, SBOM type validation, split on `file=`, record count
validation, HPSM policy check, then the single-worker or multi-worker
path.  `sbomWriteOk` models the temporary SBOM file write; the workers of
a threaded dispatch invoke the engine once per non-empty job. -/
def scanDirectDispatch (workers : Int) (grouping : Nat) (hpsmEnabled : Bool)
    (engine : String → Option String) (contents scanType sbom : String)
    (sbomWriteOk : Bool) : DispatchOutcome :=
  let contentsTrimmed := trimSpace contents
  if contentsTrimmed.length = 0 then
    ⟨400, "ERROR no WFP contents supplied\n", [], 0⟩
  else if 0 < sbom.length ∧ 0 < scanType.length ∧
      scanType ≠ "identify" ∧ scanType ≠ "blacklist" then
    ⟨400, "ERROR invalid SBOM .type. supplied\n", [], 0⟩
  else if 0 < sbom.length ∧ 0 < scanType.length ∧ ¬sbomWriteOk then
    ⟨500, "ERROR engine scan failed\n", [], 0⟩
  else
    let wfps := goSplit contentsTrimmed "file="
    let wfpCount := wfps.length - 1
    if wfpCount = 0 then
      ⟨400, "ERROR no WFP file contents (file=...) supplied\n", [], 0⟩
    else if ¬hpsmEnabled ∧ goContains contentsTrimmed "hpsm=" then
      ⟨403, "ERROR HPSM detected in WFP. HPSM is disabled\n", [], wfpCount⟩
    else if workers ≤ 1 then
      let r := singleScan engine contentsTrimmed
      ⟨r.1, r.2.1, r.2.2, wfpCount⟩
    else
      let o := scanThreaded workers grouping engine wfps wfpCount
      ⟨o.status, o.body, o.jobs.filter (fun j => j.length ≠ 0), wfpCount⟩

/-! ## Batch session handling
(pkg/service/scanning_service.go, ScanBatch and appendWfpChunk) -/

/-- The per-session observable state: the contents of the session WFP
file when it exists, and whether the session has an entry in the global
session-lock registry. -/
structure SessionState where
  file : Option String
  lockEntry : Bool
deriving DecidableEq, Repr

/-- The inputs ScanBatch reads from one request: the two headers, the WFP
multipart form field (`none` models a getFormFile failure), the legacy
parameters returned by getFlags, and an oracle for the temporary SBOM
file write. -/
structure BatchRequest where
  sessionIdHeader : String
  finalChunkHeader : String
  wfpForm : Option String
  flags : String
  scanType : String
  sbom : String
  dbName : String
  sbomWriteOk : Bool

/-- The observable outcome of one ScanBatch request. -/
structure BatchOutcome where
  status : Nat
  body : String
  state : SessionState
  engineInputs : List String
deriving DecidableEq, Repr

/-- Modelled from the spec: sessionLocks.getSessionLock is defined
outside src; per the session registry description it inserts the session
id into the process-wide lock registry when absent and returns its
lock. -/
def getSessionLock (st : SessionState) : SessionState :=
  { st with lockEntry := true }

/-- Modelled from the spec: sessionLocks.releaseSessionLock is defined
outside src; per the guaranteed-cleanup description it removes the
session id entry from the lock registry. -/
def releaseSessionLock (st : SessionState) : SessionState :=
  { st with lockEntry := false }

/-- Modelled from the spec: removeFileByPath is defined outside src; it
deletes the session file. -/
def removeFileByPath (st : SessionState) : SessionState :=
  { st with file := none }

/-- appendWfpChunk: takes the session lock (registering it), opens the
session file in append-or-create mode, writes the chunk, and writes one
further newline when the chunk is non-empty and does not already end
with one.  The file write is modelled as succeeding. -/
def appendWfpChunk (st : SessionState) (chunk : String) : SessionState :=
  let st := getSessionLock st
  let newline :=
    if 0 < chunk.length ∧ chunk.data.getLast? ≠ some (Char.ofNat 10) then "\n" else ""
  { st with file := some (st.file.getD "" ++ chunk ++ newline) }

/-- The body of the final-chunk branch of ScanBatch, before the deferred
cleanup: read the complete session file, validate it, and dispatch the
scan exactly as scanDirect does. -/
def finalizeScanBody (workers : Int) (grouping : Nat) (hpsmEnabled : Bool)
    (engine : String → Option String) (req : BatchRequest) (st : SessionState) :
    Nat × String × List String :=
  match st.file with
  | none => (500, "ERROR failed to read complete WFP file\n", [])
  | some completeWfp =>
    let contentsTrimmed := trimSpace completeWfp
    if contentsTrimmed.length = 0 then
      (400, "ERROR no WFP contents in session\n", [])
    else if 0 < req.sbom.length ∧ 0 < req.scanType.length ∧
        req.scanType ≠ "identify" ∧ req.scanType ≠ "blacklist" then
      (400, "ERROR invalid SBOM .type. supplied\n", [])
    else if 0 < req.sbom.length ∧ 0 < req.scanType.length ∧ ¬req.sbomWriteOk then
      (500, "ERROR engine scan failed\n", [])
    else
      let wfps := goSplit contentsTrimmed "file="
      let wfpCount := wfps.length - 1
      if wfpCount = 0 then
        (400, "ERROR no WFP file contents (file=...) supplied\n", [])
      else if ¬hpsmEnabled ∧ goContains contentsTrimmed "hpsm=" then
        (403, "ERROR HPSM detected in WFP. HPSM is disabled\n", [])
      else if workers ≤ 1 then
        singleScan engine contentsTrimmed
      else
        let o := scanThreaded workers grouping engine wfps wfpCount
        (o.status, o.body, o.jobs.filter fun j => j.length ≠ 0)

/-- ScanBatch: header validation happens before any file access; the
trimmed chunk is appended under the session lock; on a final chunk the
scan body runs and the deferred releaseSessionLock and removeFileByPath
calls then apply to every exit path of that body; on a non-final chunk
the request is acknowledged with 202. -/
def scanBatch (workers : Int) (grouping : Nat) (hpsmEnabled : Bool)
    (engine : String → Option String) (req : BatchRequest) (st : SessionState) :
    BatchOutcome :=
  let sessionID := trimSpace req.sessionIdHeader
  if sessionID.length = 0 then
    ⟨400, "ERROR Session-Id header is required\n", st, []⟩
  else if goContains sessionID "/" || goContains sessionID ".." then
    ⟨400, "ERROR invalid Session-Id\n", st, []⟩
  else
    let finalChunk := goToLower (trimSpace req.finalChunkHeader) = "true"
    match req.wfpForm with
    | none => ⟨400, "ERROR receiving WFP chunk contents\n", st, []⟩
    | some chunkContents =>
      let chunkTrimmed := trimSpace chunkContents
      if chunkTrimmed.length = 0 then
        ⟨400, "ERROR no WFP chunk contents supplied\n", st, []⟩
      else
        let st := appendWfpChunk st chunkTrimmed
        if finalChunk then
          let r := finalizeScanBody workers grouping hpsmEnabled engine req st
          ⟨r.1, r.2.1, releaseSessionLock (removeFileByPath st), r.2.2⟩
        else
          ⟨202, "\x7b\"message\":\"Chunk received for session " ++ sessionID ++ "\"\x7d\n",
            st, []⟩

/-! ## Helper lemmas -/

/-- Each snippet-settings step leaves the ranking fields unchanged. -/
lemma snippetSteps_ranking (st : ScanSettings) (acc : ScanningServiceConfig × List String) :
    ((applyHonourFileExts st (applyMinSnippetLines st (applyMinSnippetHits st acc))).1.rankingEnabled
        = acc.1.rankingEnabled ∧
      (applyHonourFileExts st (applyMinSnippetLines st (applyMinSnippetHits st acc))).1.rankingThreshold
        = acc.1.rankingThreshold) := by
  unfold applyHonourFileExts applyMinSnippetLines applyMinSnippetHits
  rcases st with ⟨re, rt, mh, ml, he⟩
  cases mh <;> cases ml <;> cases he <;> dsimp <;> (try split_ifs) <;> simp

/-- applySnippetSettings never changes the ranking fields of the
configuration it returns. -/
lemma applySnippetSettings_ranking (mA : Bool) (cfg : ScanningServiceConfig)
    (st : ScanSettings) (r : ScanningServiceConfig × List String)
    (h : applySnippetSettings mA cfg st = .ok r) :
    r.1.rankingEnabled = cfg.rankingEnabled ∧
      r.1.rankingThreshold = cfg.rankingThreshold := by
  unfold applySnippetSettings at h
  split at h
  · exact absurd h (by simp)
  · have hr := snippetSteps_ranking st (cfg, [])
    cases h
    exact hr

/-- applyDirectParameters never changes the ranking fields. -/
lemma applyDirectParameters_ranking (cfg : ScanningServiceConfig)
    (flags scanType sbom dbName : String) :
    (applyDirectParameters cfg flags scanType sbom dbName).rankingEnabled
        = cfg.rankingEnabled ∧
      (applyDirectParameters cfg flags scanType sbom dbName).rankingThreshold
        = cfg.rankingThreshold := by
  unfold applyDirectParameters
  split_ifs <;> (try cases goAtoi flags) <;> simp_all

/-- A ranking request with ranking disallowed on the server leaves the
configuration untouched. -/
lemma applyRankingSettings_ignored (cfg : ScanningServiceConfig) (st : ScanSettings)
    (hreq : st.rankingEnabled ≠ none ∨ st.rankingThreshold ≠ none) :
    applyRankingSettings false cfg st = cfg := by
  unfold applyRankingSettings
  rw [if_pos ⟨hreq, by simp⟩]

/-- applySnippetSettings succeeds when no match-config field is present
or the server allows match configuration. -/
lemma applySnippetSettings_ok (mA : Bool) (cfg : ScanningServiceConfig)
    (st : ScanSettings)
    (hok : (st.minSnippetHits = none ∧ st.minSnippetLines = none ∧
        st.honourFileExts = none) ∨ mA = true) :
    applySnippetSettings mA cfg st =
      .ok (applyHonourFileExts st
        (applyMinSnippetLines st (applyMinSnippetHits st (cfg, [])))) := by
  unfold applySnippetSettings
  rcases hok with ⟨h1, h2, h3⟩ | h
  · rw [if_neg (by simp [h1, h2, h3])]
  · rw [if_neg (by simp [h])]

/-- The resolver applied to a parsed settings value. -/
lemma updateConfigDTO_of_parse (rA mA : Bool)
    (parse : List Nat → Option ScanSettings) (cur : ScanningServiceConfig)
    (flags scanType sbom dbName : String) (input : List Nat) (st : ScanSettings)
    (hlen : 0 < input.length) (hparse : parse input = some st) :
    UpdateScanningServiceConfigDTO rA mA parse (some cur) flags scanType sbom dbName input =
      match applySnippetSettings mA (applyRankingSettings rA cur st) st with
      | .error e => (some cur, applyRankingSettings rA cur st, some e)
      | .ok (c, _) =>
        (some cur, applyDirectParameters c flags scanType sbom dbName, none) := by
  unfold UpdateScanningServiceConfigDTO
  dsimp only
  rw [if_pos hlen, hparse]

/-- The resolver applied to an absent settings payload reports no
error. -/
lemma updateConfigDTO_nil_settings (rA mA : Bool)
    (parse : List Nat → Option ScanSettings) (cur : ScanningServiceConfig)
    (flags scanType sbom dbName : String) :
    (UpdateScanningServiceConfigDTO rA mA parse (some cur) flags scanType sbom dbName []).2.2
      = none := by
  unfold UpdateScanningServiceConfigDTO
  dsimp only
  rw [if_neg (by simp)]
  dsimp only
  rw [applySnippetSettings_ok _ _ _ (Or.inl ⟨rfl, rfl, rfl⟩)]

/-! ## Claim theorems for the configuration resolver -/

/-- C7: UpdateScanningServiceConfigDTO, called with a non-nil current
configuration, never writes through the caller's pointer on any path:
the pointee after the call equals the value before it, on the parse
error path, the snippet rejection path and the success path alike. -/
theorem c7_resolver_never_mutates_caller (rA mA : Bool)
    (parse : List Nat → Option ScanSettings) (cur : ScanningServiceConfig)
    (flags scanType sbom dbName : String) (input : List Nat) :
    (UpdateScanningServiceConfigDTO rA mA parse (some cur)
      flags scanType sbom dbName input).1 = some cur := by
  unfold UpdateScanningServiceConfigDTO
  dsimp only
  cases hp : (if 0 < input.length then parse input else some emptyScanSettings) with
  | none => rfl
  | some s =>
    dsimp only
    cases hs : applySnippetSettings mA (applyRankingSettings rA cur s) s with
    | error e => rfl
    | ok p => rfl

/-- C6: a settings payload requesting ranking fields while the server
disallows ranking is silently ignored, the resolved configuration keeps
the prior ranking values and resolution succeeds, provided the payload
does not separately violate the match-config policy; a payload
requesting any match-config field while the server disallows match
configuration fails the entire resolution with the rejection error. -/
theorem c6_settings_authorization (rA mA : Bool)
    (parse : List Nat → Option ScanSettings) (cur : ScanningServiceConfig)
    (flags scanType sbom dbName : String) (input : List Nat) (st : ScanSettings)
    (hlen : 0 < input.length) (hparse : parse input = some st) :
    ((st.rankingEnabled ≠ none ∨ st.rankingThreshold ≠ none) → rA = false →
      ((st.minSnippetHits = none ∧ st.minSnippetLines = none ∧
          st.honourFileExts = none) ∨ mA = true) →
      (UpdateScanningServiceConfigDTO rA mA parse (some cur)
          flags scanType sbom dbName input).2.2 = none ∧
        (UpdateScanningServiceConfigDTO rA mA parse (some cur)
          flags scanType sbom dbName input).2.1.rankingEnabled = cur.rankingEnabled ∧
        (UpdateScanningServiceConfigDTO rA mA parse (some cur)
          flags scanType sbom dbName input).2.1.rankingThreshold = cur.rankingThreshold) ∧
    ((st.minSnippetHits ≠ none ∨ st.minSnippetLines ≠ none ∨
        st.honourFileExts ≠ none) → mA = false →
      (UpdateScanningServiceConfigDTO rA mA parse (some cur)
        flags scanType sbom dbName input).2.2 =
          some "match config settings rejected: MatchConfigAllowed is disabled") := by
  rw [updateConfigDTO_of_parse rA mA parse cur flags scanType sbom dbName input st hlen hparse]
  constructor
  · intro hreq hrA hok
    subst hrA
    rw [applyRankingSettings_ignored cur st hreq]
    rw [applySnippetSettings_ok mA cur st hok]
    dsimp only
    refine ⟨rfl, ?_, ?_⟩
    · rw [(applyDirectParameters_ranking _ flags scanType sbom dbName).1]
      exact (snippetSteps_ranking st (cur, [])).1
    · rw [(applyDirectParameters_ranking _ flags scanType sbom dbName).2]
      exact (snippetSteps_ranking st (cur, [])).2
  · intro hreq hmA
    subst hmA
    unfold applySnippetSettings
    rw [if_pos ⟨hreq, by simp⟩]

/-- C5 counterexample: the settings header `####` is not valid base64,
yet configuration resolution succeeds: getConfigFromRequest drops the
payload and returns no error, where the claim requires a validation
failure. -/
theorem c5_counterexample :
    base64Decode "####" = none ∧
      (getConfigFromRequest true true (fun _ => none) zeroScanningServiceConfig
        "" "" "" "" "####").2 = none := by
  constructor
  · rfl
  · rfl

/-- C5 amended: a settings header that is invalid base64 is logged and
dropped, resolution proceeds as if no payload had been supplied and
succeeds; a payload that decodes but is malformed JSON fails resolution
with the unmarshalling error, short-circuiting before any setting or
legacy parameter is applied. -/
theorem c5_amended_settings_payload_errors (rA mA : Bool)
    (parse : List Nat → Option ScanSettings) (base cur : ScanningServiceConfig)
    (flags scanType sbom dbName s : String) (input : List Nat)
    (hs : 0 < s.length) (hdec : base64Decode s = none)
    (hlen : 0 < input.length) (hparse : parse input = none) :
    ((getConfigFromRequest rA mA parse base flags scanType sbom dbName s).2 = none ∧
      getConfigFromRequest rA mA parse base flags scanType sbom dbName s =
        getConfigFromRequest rA mA parse base flags scanType sbom dbName "") ∧
    UpdateScanningServiceConfigDTO rA mA parse (some cur)
        flags scanType sbom dbName input =
      (some cur, cur,
        some "error unmarshalling scanning service config requested by client") := by
  refine ⟨⟨?_, ?_⟩, ?_⟩
  · unfold getConfigFromRequest
    rw [if_pos hs, hdec]
    exact updateConfigDTO_nil_settings rA mA parse base flags scanType sbom dbName
  · unfold getConfigFromRequest
    rw [if_pos hs, hdec]
    rw [if_neg (by simp)]
  · unfold UpdateScanningServiceConfigDTO
    dsimp only
    rw [if_pos hlen, hparse]

/-- Witness for C6 at a concrete server policy, configuration and
payload: the ranking request is dropped without error and the
match-config request is rejected. -/
theorem c6_settings_authorization_witness :
    (UpdateScanningServiceConfigDTO false false
        (fun _ => some ⟨some true, some 5, none, none, none⟩)
        (some ⟨7, "kb", "sb", "db", true, 42, 1, 2, true⟩) "" "" "" "" [0]).2.2 = none ∧
      (UpdateScanningServiceConfigDTO false false
        (fun _ => some ⟨some true, some 5, none, none, none⟩)
        (some ⟨7, "kb", "sb", "db", true, 42, 1, 2, true⟩) "" "" "" "" [0]).2.1.rankingThreshold
          = 42 ∧
      (UpdateScanningServiceConfigDTO false false
        (fun _ => some ⟨none, none, some 3, none, none⟩)
        (some ⟨7, "kb", "sb", "db", true, 42, 1, 2, true⟩) "" "" "" "" [0]).2.2 =
          some "match config settings rejected: MatchConfigAllowed is disabled" := by
  have h1 := (c6_settings_authorization false false
    (fun _ => some ⟨some true, some 5, none, none, none⟩)
    ⟨7, "kb", "sb", "db", true, 42, 1, 2, true⟩ "" "" "" "" [0]
    ⟨some true, some 5, none, none, none⟩ (by decide) rfl).1
    (Or.inl (by decide)) rfl (Or.inl ⟨rfl, rfl, rfl⟩)
  have h2 := (c6_settings_authorization false false
    (fun _ => some ⟨none, none, some 3, none, none⟩)
    ⟨7, "kb", "sb", "db", true, 42, 1, 2, true⟩ "" "" "" "" [0]
    ⟨none, none, some 3, none, none⟩ (by decide) rfl).2
    (Or.inl (by decide)) rfl
  exact ⟨h1.1, h1.2.2, h2⟩

/-- Witness for the amended C5 at a concrete request: the invalid
base64 header `####` resolves without error, and a settings payload
whose JSON parse fails is rejected without touching the base
configuration. -/
theorem c5_amended_settings_payload_errors_witness :
    ((getConfigFromRequest true true (fun _ => none) zeroScanningServiceConfig
        "9" "identify" "sb" "db" "####").2 = none ∧
      getConfigFromRequest true true (fun _ => none) zeroScanningServiceConfig
          "9" "identify" "sb" "db" "####" =
        getConfigFromRequest true true (fun _ => none) zeroScanningServiceConfig
          "9" "identify" "sb" "db" "") ∧
    UpdateScanningServiceConfigDTO true true (fun _ => none)
        (some zeroScanningServiceConfig) "9" "identify" "sb" "db" [0] =
      (some zeroScanningServiceConfig, zeroScanningServiceConfig,
        some "error unmarshalling scanning service config requested by client") :=
  c5_amended_settings_payload_errors true true (fun _ => none)
    zeroScanningServiceConfig zeroScanningServiceConfig
    "9" "identify" "sb" "db" "####" [0] (by decide) rfl (by decide) rfl

/-! ## Claim theorems for the batch session handler -/

/-- C8: a batch request whose Session-Id header is empty after trimming
or contains a slash or a dot-dot sequence is rejected with 400 before
any session file access: the session state is unchanged. -/
theorem c8_session_id_validated_before_io (workers : Int) (grouping : Nat)
    (hpsmEnabled : Bool) (engine : String → Option String) (req : BatchRequest)
    (st : SessionState)
    (h : trimSpace req.sessionIdHeader = "" ∨
      goContains (trimSpace req.sessionIdHeader) "/" = true ∨
      goContains (trimSpace req.sessionIdHeader) ".." = true) :
    (scanBatch workers grouping hpsmEnabled engine req st).status = 400 ∧
      (scanBatch workers grouping hpsmEnabled engine req st).state = st := by
  unfold scanBatch
  by_cases h0 : (trimSpace req.sessionIdHeader).length = 0
  · rw [if_pos h0]
    exact ⟨rfl, rfl⟩
  · rw [if_neg h0]
    have hc : (goContains (trimSpace req.sessionIdHeader) "/" ||
        goContains (trimSpace req.sessionIdHeader) "..") = true := by
      rcases h with h | h | h
      · exact absurd (by rw [h]; rfl) h0
      · simp [h]
      · simp [h]
    rw [if_pos hc]
    exact ⟨rfl, rfl⟩

/-- Witness for C8 at the session id `../etc/passwd` from the spec. -/
theorem c8_session_id_validated_before_io_witness :
    (trimSpace " ../etc/passwd " = "" ∨
      goContains (trimSpace " ../etc/passwd ") "/" = true ∨
      goContains (trimSpace " ../etc/passwd ") ".." = true) ∧
    (scanBatch 1 3 true (fun _ => some "r")
      ⟨" ../etc/passwd ", "true", some "file=a,1,x", "", "", "", "", true⟩
      ⟨none, false⟩).status = 400 ∧
    (scanBatch 1 3 true (fun _ => some "r")
      ⟨" ../etc/passwd ", "true", some "file=a,1,x", "", "", "", "", true⟩
      ⟨none, false⟩).state = ⟨none, false⟩ := by
  have h := c8_session_id_validated_before_io 1 3 true (fun _ => some "r")
    ⟨" ../etc/passwd ", "true", some "file=a,1,x", "", "", "", "", true⟩
    ⟨none, false⟩ (Or.inr (Or.inl (by decide)))
  exact ⟨Or.inr (Or.inl (by decide)), h.1, h.2⟩

/-- C9: once the final chunk of a session has been appended, the session
file is removed and the registry lock entry is released on every exit
path of the finalization body, whatever the engine, SBOM and validation
outcomes are. -/
theorem c9_final_chunk_cleanup (workers : Int) (grouping : Nat)
    (hpsmEnabled : Bool) (engine : String → Option String) (req : BatchRequest)
    (st : SessionState) (c : String)
    (hsid : ¬(trimSpace req.sessionIdHeader).length = 0)
    (hclean : (goContains (trimSpace req.sessionIdHeader) "/" ||
      goContains (trimSpace req.sessionIdHeader) "..") = false)
    (hform : req.wfpForm = some c)
    (hchunk : ¬(trimSpace c).length = 0)
    (hfinal : goToLower (trimSpace req.finalChunkHeader) = "true") :
    (scanBatch workers grouping hpsmEnabled engine req st).state.file = none ∧
      (scanBatch workers grouping hpsmEnabled engine req st).state.lockEntry = false := by
  unfold scanBatch
  rw [if_neg hsid]
  simp only [hclean, Bool.false_eq_true, if_false]
  rw [hform]
  dsimp only
  rw [if_neg hchunk, if_pos hfinal]
  exact ⟨rfl, rfl⟩

/-- Witness for C9: a concrete final chunk whose dispatch fails still
leaves the session file deleted and the lock entry released. -/
theorem c9_final_chunk_cleanup_witness :
    (scanBatch 1 3 true (fun _ => none)
      ⟨"sess1", " True ", some " file=a,1,x\nl1 ", "", "", "", "", true⟩
      ⟨some "file=z,9,q\n", true⟩).state.file = none ∧
    (scanBatch 1 3 true (fun _ => none)
      ⟨"sess1", " True ", some " file=a,1,x\nl1 ", "", "", "", "", true⟩
      ⟨some "file=z,9,q\n", true⟩).state.lockEntry = false :=
  c9_final_chunk_cleanup 1 3 true (fun _ => none)
    ⟨"sess1", " True ", some " file=a,1,x\nl1 ", "", "", "", "", true⟩
    ⟨some "file=z,9,q\n", true⟩ " file=a,1,x\nl1 "
    (by decide) (by decide) rfl (by decide) (by decide)

/-- C10: ScanBatch trims the uploaded chunk: a chunk that is entirely
whitespace is rejected with 400 before the session file is opened, and
otherwise the bytes appended to the session file are exactly the
trimmed chunk followed by one newline exactly when the trimmed chunk
does not already end with a newline, shown here on the non-final path
where the file persists. -/
theorem c10_chunk_trimmed_append (workers : Int) (grouping : Nat)
    (hpsmEnabled : Bool) (engine : String → Option String) (req : BatchRequest)
    (st : SessionState) (c : String)
    (hsid : ¬(trimSpace req.sessionIdHeader).length = 0)
    (hclean : (goContains (trimSpace req.sessionIdHeader) "/" ||
      goContains (trimSpace req.sessionIdHeader) "..") = false)
    (hform : req.wfpForm = some c) :
    ((trimSpace c).length = 0 →
      (scanBatch workers grouping hpsmEnabled engine req st).status = 400 ∧
        (scanBatch workers grouping hpsmEnabled engine req st).state = st) ∧
    (¬(trimSpace c).length = 0 →
      ¬goToLower (trimSpace req.finalChunkHeader) = "true" →
      (scanBatch workers grouping hpsmEnabled engine req st).status = 202 ∧
        (scanBatch workers grouping hpsmEnabled engine req st).state.file =
          some (st.file.getD "" ++ trimSpace c ++
            (if (trimSpace c).data.getLast? = some (Char.ofNat 10) then "" else "\n"))) := by
  unfold scanBatch
  rw [if_neg hsid]
  simp only [hclean, Bool.false_eq_true, if_false]
  rw [hform]
  dsimp only
  constructor
  · intro h0
    rw [if_pos h0]
    exact ⟨rfl, rfl⟩
  · intro h0 hnf
    rw [if_neg h0, if_neg hnf]
    refine ⟨rfl, ?_⟩
    unfold appendWfpChunk getSessionLock
    dsimp only
    by_cases hl : (trimSpace c).data.getLast? = some (Char.ofNat 10)
    · rw [if_pos hl, if_neg (fun hcon => hcon.2 hl)]
    · rw [if_neg hl, if_pos ⟨by omega, hl⟩]

/-- Witness for C10: a whitespace-only chunk is rejected without state
change, and a concrete chunk is appended trimmed with one newline
added. -/
theorem c10_chunk_trimmed_append_witness :
    ((scanBatch 1 3 true (fun _ => some "r")
        ⟨"sess1", "false", some "  \n ", "", "", "", "", true⟩
        ⟨some "old\n", true⟩).status = 400 ∧
      (scanBatch 1 3 true (fun _ => some "r")
        ⟨"sess1", "false", some "  \n ", "", "", "", "", true⟩
        ⟨some "old\n", true⟩).state = ⟨some "old\n", true⟩) ∧
    ((scanBatch 1 3 true (fun _ => some "r")
        ⟨"sess1", "false", some " file=a,1,x\nl1 ", "", "", "", "", true⟩
        ⟨some "old\n", true⟩).status = 202 ∧
      (scanBatch 1 3 true (fun _ => some "r")
        ⟨"sess1", "false", some " file=a,1,x\nl1 ", "", "", "", "", true⟩
        ⟨some "old\n", true⟩).state.file = some ("old\n" ++ "file=a,1,x\nl1" ++ "\n")) := by
  have h1 := (c10_chunk_trimmed_append 1 3 true (fun _ => some "r")
    ⟨"sess1", "false", some "  \n ", "", "", "", "", true⟩
    ⟨some "old\n", true⟩ "  \n " (by decide) (by decide) rfl).1 (by decide)
  have h2 := (c10_chunk_trimmed_append 1 3 true (fun _ => some "r")
    ⟨"sess1", "false", some " file=a,1,x\nl1 ", "", "", "", "", true⟩
    ⟨some "old\n", true⟩ " file=a,1,x\nl1 " (by decide) (by decide) rfl).2
    (by decide) (by decide)
  refine ⟨⟨h1.1, h1.2⟩, ⟨h2.1, ?_⟩⟩
  rw [h2.2]
  decide

/-! ## Claim theorems for the dispatcher -/

/-- C1: for a multi-worker dispatch the jobs submitted are exactly the
grouped batches, one result per job is drained (one drained result per
submitted job, equal counts), and a failing or empty job contributes an
empty-string result. -/
theorem c1_submit_drain_invariant (workers : Int) (grouping : Nat)
    (engine : String → Option String) (wfps : List String) (wfpCount : Nat)
    (h : 1 ≤ nonEmptyWfps wfps) :
    (scanThreaded workers grouping engine wfps wfpCount).jobs.length
        = (groupBatches grouping wfps).length ∧
      (scanThreaded workers grouping engine wfps wfpCount).results
        = (scanThreaded workers grouping engine wfps wfpCount).jobs.map
            (workerResult engine) ∧
      (scanThreaded workers grouping engine wfps wfpCount).results.length
        = (scanThreaded workers grouping engine wfps wfpCount).jobs.length ∧
      (∀ job, engine job = none ∨ job.length = 0 →
        workerResult engine job = "") := by
  refine ⟨?_, rfl, ?_, ?_⟩
  · exact List.length_map _ _
  · exact List.length_map _ _
  · intro job hj
    rcases hj with hj | hj
    · unfold workerResult
      split
      · rfl
      · rw [hj]
    · unfold workerResult
      rw [if_pos hj]

/-- Witness for C1 at a concrete dispatch with one failing job. -/
theorem c1_submit_drain_invariant_witness :
    (scanThreaded 3 2 (fun j => if j = "file=a\nfile=b" then some "ok" else none)
        ["", "a", "b", "c"] 3).jobs.length
      = (groupBatches 2 ["", "a", "b", "c"]).length ∧
    (scanThreaded 3 2 (fun j => if j = "file=a\nfile=b" then some "ok" else none)
        ["", "a", "b", "c"] 3).results.length
      = (scanThreaded 3 2 (fun j => if j = "file=a\nfile=b" then some "ok" else none)
        ["", "a", "b", "c"] 3).jobs.length ∧
    workerResult (fun j => if j = "file=a\nfile=b" then some "ok" else none)
        "file=c" = "" := by
  have h := c1_submit_drain_invariant 3 2
    (fun j => if j = "file=a\nfile=b" then some "ok" else none)
    ["", "a", "b", "c"] 3 (by decide)
  exact ⟨h.1, h.2.2.1, h.2.2.2 "file=c" (Or.inl (by decide))⟩

/-- C3 counterexample: with WfpGrouping 2, Workers 3 and five non-empty
records, three batches are dispatched but only two workers are spawned,
where the claim formula min(W, numBatches) with floor one gives
three. -/
theorem c3_counterexample :
    (scanThreaded 3 2 (fun _ => none) ["", "a", "b", "c", "d", "e"] 5).jobs.length = 3 ∧
      (scanThreaded 3 2 (fun _ => none) ["", "a", "b", "c", "d", "e"] 5).workersSpawned ≠
        max 1 (min 3
          (scanThreaded 3 2 (fun _ => none) ["", "a", "b", "c", "d", "e"] 5).jobs.length) := by
  decide

/-- C3 amended: the number of workers spawned equals
max(1, min(configuredWorkers, wfpCount / grouping)) with Go integer
(floor) division of the raw split record count wfpCount, which can be
strictly smaller than min(configuredWorkers, numBatches) since
numBatches is the ceiling over the non-empty record count. -/
theorem c3_amended_worker_count (workers : Int) (grouping : Nat)
    (engine : String → Option String) (wfps : List String) (wfpCount : Nat) :
    (scanThreaded workers grouping engine wfps wfpCount).workersSpawned =
      (max 1 (min workers ((wfpCount / grouping : Nat) : Int))).toNat := by
  unfold scanThreaded
  dsimp only
  split_ifs <;> omega

/-- C4: aggregation of a multi-worker dispatch: zero non-empty trimmed
fragments fail the request with 500, otherwise the non-empty fragments,
already brace-stripped by the workers, are joined with commas and
wrapped once in braces with status 200; in particular a partial outcome
with fewer responses than submitted jobs is still a 200 success. -/
theorem c4_aggregation (workers : Int) (grouping : Nat)
    (engine : String → Option String) (wfps : List String) (wfpCount : Nat) :
    ((scanThreaded workers grouping engine wfps wfpCount).responses = [] →
      (scanThreaded workers grouping engine wfps wfpCount).status = 500 ∧
        (scanThreaded workers grouping engine wfps wfpCount).body
          = "ERROR engine scan failed\n") ∧
    ((scanThreaded workers grouping engine wfps wfpCount).responses ≠ [] →
      (scanThreaded workers grouping engine wfps wfpCount).status = 200 ∧
        (scanThreaded workers grouping engine wfps wfpCount).body =
          "\x7b" ++ String.intercalate ","
            (scanThreaded workers grouping engine wfps wfpCount).responses ++ "\x7d\n") ∧
    ((scanThreaded workers grouping engine wfps wfpCount).responses =
      (((scanThreaded workers grouping engine wfps wfpCount).jobs.map
        (workerResult engine)).map trimSpace).filter fun r => r.length ≠ 0) ∧
    ((scanThreaded workers grouping engine wfps wfpCount).responses ≠ [] →
      (scanThreaded workers grouping engine wfps wfpCount).responses.length <
        (scanThreaded workers grouping engine wfps wfpCount).jobs.length →
      (scanThreaded workers grouping engine wfps wfpCount).status = 200) := by
  refine ⟨?_, ?_, rfl, ?_⟩
  · intro hr
    unfold scanThreaded at hr ⊢
    dsimp only at hr ⊢
    rw [hr]
    exact ⟨rfl, rfl⟩
  · intro hr
    unfold scanThreaded at hr ⊢
    dsimp only at hr ⊢
    rw [if_neg (by simpa using hr), if_neg (by simpa using hr)]
    exact ⟨rfl, rfl⟩
  · intro hr _
    unfold scanThreaded at hr ⊢
    dsimp only at hr ⊢
    rw [if_neg (by simpa using hr)]

/-- Witness for C4 at a concrete partial dispatch: one of two jobs
succeeds, the aggregate is still a 200 success wrapping the single
fragment. -/
theorem c4_aggregation_witness :
    (scanThreaded 5 1 (fun j => if j = "file=a" then some "\x7bx\x7d" else none)
        ["", "a", "b"] 2).responses.length <
      (scanThreaded 5 1 (fun j => if j = "file=a" then some "\x7bx\x7d" else none)
        ["", "a", "b"] 2).jobs.length ∧
    (scanThreaded 5 1 (fun j => if j = "file=a" then some "\x7bx\x7d" else none)
        ["", "a", "b"] 2).status = 200 ∧
    (scanThreaded 5 1 (fun j => if j = "file=a" then some "\x7bx\x7d" else none)
        ["", "a", "b"] 2).body = "\x7bx\x7d\n" := by
  have h := c4_aggregation 5 1
    (fun j => if j = "file=a" then some "\x7bx\x7d" else none) ["", "a", "b"] 2
  refine ⟨by decide, h.2.2.2 (by decide) (by decide), ?_⟩
  rw [(h.2.1 (by decide)).2]
  decide

/-- Batch size distribution of the grouping loop: starting from a
pending group smaller than the grouping size, the emitted batches are
full groups of exactly the grouping size followed by one trailing batch
holding the remainder, when non-zero, of the pending plus incoming
non-empty records. -/
lemma groupBatchesAux_sizes (g : Nat) (hg : 1 ≤ g) :
    ∀ (ws pending : List String), pending.length < g →
      (groupBatchesAux g ws pending).map List.length =
        List.replicate ((pending.length + nonEmptyWfps ws) / g) g ++
          (if (pending.length + nonEmptyWfps ws) % g = 0 then []
           else [(pending.length + nonEmptyWfps ws) % g]) := by
  intro ws
  induction ws with
  | nil =>
    intro pending hp
    unfold groupBatchesAux nonEmptyWfps
    rw [Nat.div_eq_of_lt (by omega), Nat.mod_eq_of_lt (by omega)]
    by_cases h0 : 0 < pending.length
    · rw [if_pos h0, if_neg (by omega)]
      simp
    · rw [if_neg h0, if_pos (by omega)]
      simp
  | cons w ws ih =>
    intro pending hp
    unfold groupBatchesAux nonEmptyWfps
    by_cases ht : (trimSpace w).length = 0
    · rw [if_pos ht, if_pos ht]
      exact ih pending hp
    · rw [if_neg ht, if_neg ht]
      by_cases hfull : g ≤ (pending ++ ["file=" ++ trimSpace w]).length
      · have hplen : pending.length + 1 = g := by
          simp only [List.length_append, List.length_cons, List.length_nil] at hfull
          omega
        rw [if_pos hfull]
        have hrec := ih [] (by simp only [List.length_nil]; omega)
        simp only [List.length_nil, Nat.zero_add] at hrec
        simp only [List.map_cons, hrec, List.length_append, List.length_cons,
          List.length_nil]
        have htot : pending.length + (nonEmptyWfps ws + 1) = g + nonEmptyWfps ws := by
          omega
        rw [htot, Nat.add_div_left _ (by omega), Nat.add_mod_left]
        rw [List.replicate_succ]
        simp [hplen]
      · have hplen : pending.length + 1 < g := by
          simp only [List.length_append, List.length_cons, List.length_nil] at hfull
          omega
        rw [if_neg hfull]
        have hrec := ih (pending ++ ["file=" ++ trimSpace w])
          (by simpa using hplen)
        simp only [List.length_append, List.length_cons, List.length_nil] at hrec
        rw [hrec]
        have htot : pending.length + 1 + nonEmptyWfps ws
            = pending.length + (nonEmptyWfps ws + 1) := by omega
        rw [htot]

/-- Ceiling form of the batch count. -/
lemma ceil_div_split (n g : Nat) (hg : 1 ≤ g) :
    n / g + (if n % g = 0 then 0 else 1) = (n + g - 1) / g := by
  obtain ⟨q, r, hr, hn⟩ : ∃ q r, r < g ∧ n = g * q + r :=
    ⟨n / g, n % g, Nat.mod_lt n (by omega), (Nat.div_add_mod n g).symm⟩
  subst hn
  rw [Nat.mul_add_div (by omega), Nat.mul_add_mod, Nat.mod_eq_of_lt hr,
    Nat.div_eq_of_lt hr]
  by_cases h0 : r = 0
  · subst h0
    rw [if_pos rfl]
    have hrepr : g * q + 0 + g - 1 = g * q + (g - 1) := by omega
    rw [hrepr, Nat.mul_add_div (by omega), Nat.div_eq_of_lt (by omega)]
  · rw [if_neg h0]
    have hrepr : g * q + r + g - 1 = g * q + (r - 1 + g) := by omega
    rw [hrepr, Nat.mul_add_div (by omega), Nat.add_div_right _ (by omega),
      Nat.div_eq_of_lt (by omega)]

/-- C2: with grouping G and at least one non-empty record, the
multi-worker dispatcher submits exactly ceil(N/G) jobs over the N
non-empty records, full batches carry exactly G records and only the
trailing batch is smaller; in single-worker mode (Workers at most one)
exactly one engine invocation is made and it receives the whitespace
trimmed original blob unregrouped. -/
theorem c2_grouping_and_single_worker (workers : Int) (grouping : Nat)
    (hpsmEnabled : Bool) (engine : String → Option String) (wfps : List String)
    (wfpCount : Nat) (contents scanType sbom : String) (sbomWriteOk : Bool)
    (hg : 1 ≤ grouping) (hn : 1 ≤ nonEmptyWfps wfps) :
    ((scanThreaded workers grouping engine wfps wfpCount).jobs.length
        = (nonEmptyWfps wfps + grouping - 1) / grouping ∧
      (groupBatches grouping wfps).map List.length =
        List.replicate (nonEmptyWfps wfps / grouping) grouping ++
          (if nonEmptyWfps wfps % grouping = 0 then []
           else [nonEmptyWfps wfps % grouping])) ∧
    (workers ≤ 1 →
      ¬(trimSpace contents).length = 0 →
      ¬(0 < sbom.length ∧ 0 < scanType.length ∧
        scanType ≠ "identify" ∧ scanType ≠ "blacklist") →
      ¬(0 < sbom.length ∧ 0 < scanType.length ∧ ¬sbomWriteOk) →
      ¬((goSplit (trimSpace contents) "file=").length - 1 = 0) →
      ¬(¬hpsmEnabled ∧ goContains (trimSpace contents) "hpsm=") →
      (scanDirectDispatch workers grouping hpsmEnabled engine contents
        scanType sbom sbomWriteOk).engineInputs = [trimSpace contents]) := by
  constructor
  · have hsz0 := groupBatchesAux_sizes grouping hg wfps []
      (by simp only [List.length_nil]; omega)
    simp only [List.length_nil, Nat.zero_add] at hsz0
    have hsz : (groupBatches grouping wfps).map List.length =
        List.replicate (nonEmptyWfps wfps / grouping) grouping ++
          (if nonEmptyWfps wfps % grouping = 0 then []
           else [nonEmptyWfps wfps % grouping]) := hsz0
    constructor
    · show (groupJobs grouping wfps).length = _
      unfold groupJobs
      rw [List.length_map, ← ceil_div_split (nonEmptyWfps wfps) grouping hg]
      have hlm : (groupBatches grouping wfps).length
          = ((groupBatches grouping wfps).map List.length).length :=
        (List.length_map _ _).symm
      rw [hlm, hsz]
      by_cases h0 : nonEmptyWfps wfps % grouping = 0
      · rw [if_pos h0, if_pos h0]
        simp
      · rw [if_neg h0, if_neg h0]
        simp
    · exact hsz
  · intro hw htrim hsbom1 hsbom2 hcount hhpsm
    unfold scanDirectDispatch
    rw [if_neg htrim, if_neg hsbom1, if_neg hsbom2]
    dsimp only
    rw [if_neg hcount, if_neg hhpsm, if_pos hw]
    unfold singleScan
    cases engine (trimSpace contents) with
    | none => rfl
    | some r =>
      dsimp only
      by_cases hr : (trimSpace r).length = 0
      · rw [if_pos hr]
      · rw [if_neg hr]

/-- Witness for C2: five records grouped by two give three jobs of sizes
two, two and one; a single-worker dispatch passes the trimmed blob as
the only engine input. -/
theorem c2_grouping_and_single_worker_witness :
    ((scanThreaded 3 2 (fun _ => none) ["", "a", "b", "c", "d", "e"] 5).jobs.length
        = (5 + 2 - 1) / 2 ∧
      (groupBatches 2 ["", "a", "b", "c", "d", "e"]).map List.length = [2, 2, 1]) ∧
    (scanDirectDispatch 1 2 true (fun _ => some "r") " file=a,1,x\nl1 " "" ""
      true).engineInputs = ["file=a,1,x\nl1"] := by
  have h := c2_grouping_and_single_worker 1 2 true (fun _ => some "r")
    ["", "a", "b", "c", "d", "e"] 5 " file=a,1,x\nl1 " "" "" true
    (by decide) (by decide)
  have h3 := c2_grouping_and_single_worker 3 2 true (fun _ => none)
    ["", "a", "b", "c", "d", "e"] 5 " file=a,1,x\nl1 " "" "" true
    (by decide) (by decide)
  refine ⟨⟨h3.1.1.trans (by decide), ?_⟩, ?_⟩
  · rw [h3.1.2]
    decide
  · have := h.2 (by decide) (by decide) (by decide) (by decide) (by decide)
      (by decide)
    rw [this]
    decide

end ScanossApi
